import Mathlib

/-!
Verification development for the rbsecp256k1 wrapper
(src/ext/rbsecp256k1/rbsecp256k1.c).

The wrapper exposes libsecp256k1 key generation, ECDSA signing and
verification to a host runtime.  We embed the control flow of the
wrapper itself from the C source.  The external collaborators
(libsecp256k1 curve arithmetic, OpenSSL SHA-256 and RNG) are out of
scope per the spec: the fully format-pinned external functions (the
compact signature codec and the secret-key range check) are modelled
concretely from the format tables of the spec, while the remaining
curve operations are abstract parameters constrained only by the
library contract the spec assumes.

Bytes are modelled as natural numbers in a `List Nat`, big-endian where
a number is read out of bytes.  Ruby strings are mutable heap objects,
so where aliasing matters an argument string is a reference `ref : Nat`
into a heap `Nat → List Nat`.
-/

set_option maxRecDepth 4000

/-- Big-endian numeric value of a byte list: the head byte is the most
significant. -/
def beNat : List Nat → Nat
  | [] => 0
  | b :: bs => b * 256 ^ bs.length + beNat bs

/-- Fixed-width big-endian byte encoding of a natural number: `w` bytes,
value taken mod `256 ^ w` (matching 32-byte scalar serialization
semantics, which write exactly 32 bytes). -/
def beBytes : Nat → Nat → List Nat
  | 0, _ => []
  | w + 1, n => beBytes w (n / 256) ++ [n % 256]

/-- Modelled from the spec: the order of the secp256k1 group (the curve
order against which private-key scalars and signature scalars are
range-checked by the external libsecp256k1 library). -/
def secpOrder : Nat :=
  0xFFFFFFFFFFFFFFFFFFFFFFFFFFFFFFFEBAAEDCE6AF48A03BBFD25E8CD0364141

/-- An ECDSA signature as its (r, s) scalar pair — the content of the
opaque secp256k1_ecdsa_signature object the wrapper stores. -/
structure SigRS where
  r : Nat
  s : Nat
  deriving DecidableEq

/-- Modelled from the spec: secp256k1_ec_seckey_verify (external
libsecp256k1; the key must satisfy the scalar-validity predicate of the
curve: non-zero, less than curve order).  The input is the 32-byte
buffer the wrapper hands over; the scalar is its big-endian value. -/
def secp256k1_ec_seckey_verify (key : List Nat) : Bool :=
  decide (0 < beNat key ∧ beNat key < secpOrder)

/-- Modelled from the spec: secp256k1_ecdsa_signature_serialize_compact
(external libsecp256k1; r (32 bytes) ‖ s (32 bytes), big-endian,
64 bytes).  Always succeeds. -/
def secp256k1_ecdsa_signature_serialize_compact (sig : SigRS) : List Nat :=
  beBytes 32 sig.r ++ beBytes 32 sig.s

/-- Modelled from the spec: secp256k1_ecdsa_signature_parse_compact
(external libsecp256k1).  Reads exactly 64 bytes from the supplied
buffer — it has no length argument — and fails exactly when the decoded
r or s scalar overflows the group order. -/
def secp256k1_ecdsa_signature_parse_compact (input64 : List Nat) : Option SigRS :=
  if beNat (input64.take 32) < secpOrder ∧
      beNat ((input64.drop 32).take 32) < secpOrder then
    some { r := beNat (input64.take 32), s := beNat ((input64.drop 32).take 32) }
  else
    none

/-- The recoverable error taxonomy of the wrapper (spec section 7).  In
the C source these are Ruby RuntimeError / ArgumentError / TypeError
raises distinguished by their message; we use the names of the spec for
the raise sites the claims talk about. -/
inductive SecpError where
  | RandomizationError
  | InvalidKeyLength
  | InvalidPrivateKey
  | KeyDerivationError
  | InvalidPublicKeyData
  | SigningError
  | InvalidDEREncoding
  | InvalidCompactSignature
  | EncodingError
  deriving DecidableEq

/-- The external collaborators the wrapper calls, as abstract operations
over an abstract context type κ and public-key (curve point) type π.
The spec treats all of these as a trusted, already-correct secp256k1 /
OpenSSL surface; theorems that need a piece of that contract take it as
an explicit hypothesis.  The `Option Unit` argument of `ecdsa_sign`
stands for the nonce-function pointer of secp256k1_ecdsa_sign: `none`
is the C NULL, which selects the default deterministic (RFC 6979-style)
nonce function of the library. -/
structure ExternalLib (κ π : Type) where
  context_create : κ
  context_clone : κ → κ
  context_randomize : κ → List Nat → Option κ
  sha256 : List Nat → List Nat
  pubkey_create : κ → List Nat → Option π
  ecdsa_sign : κ → List Nat → List Nat → Option Unit → Option SigRS
  ecdsa_verify : κ → SigRS → List Nat → π → Bool
  serialize_der : SigRS → Option (List Nat)
  parse_der : List Nat → Option SigRS

/-- A Secp256k1::Context object: wraps one libsecp256k1 context. -/
structure ContextObj (κ : Type) where
  ctx : κ
  deriving DecidableEq

/-- A Secp256k1::PrivateKey object.  `data` is the 32-byte copy held in
the C struct; `ctx` the cloned context; `ivarData` the reference stored
into the @data instance variable — the C stores the string object of
the caller itself there, not a copy, so this is a heap reference. -/
structure PrivateKeyObj (κ : Type) where
  data : List Nat
  ctx : κ
  ivarData : Nat
  deriving DecidableEq

/-- A Secp256k1::PublicKey object. -/
structure PublicKeyObj (κ π : Type) where
  pubkey : π
  ctx : κ
  deriving DecidableEq

/-- A Secp256k1::Signature object. -/
structure SignatureObj (κ : Type) where
  sig : SigRS
  ctx : κ
  deriving DecidableEq

/-- A Secp256k1::KeyPair object: a pure aggregate of its two members
(the C struct fields and the mirrored @public_key / @private_key
instance variables hold the same two object references). -/
structure KeyPairObj (κ π : Type) where
  public_key : PublicKeyObj κ π
  private_key : PrivateKeyObj κ
  deriving DecidableEq

/-- Embeds GenerateRandomBytes (rbsecp256k1.c lines 205-222).  The two
external outcomes are inputs: `randStatusOk` is whether RAND_status()
reported a seeded RNG, `randBytesResult` is what RAND_bytes produced
(`none` when it failed).  The second component of the result is the
contents of the output buffer afterwards: the generated bytes on
success, the previous (uninitialized) contents `buf` otherwise, since
the C never writes the buffer on the failure paths. -/
def GenerateRandomBytes (randStatusOk : Bool) (randBytesResult : Option (List Nat))
    (buf : List Nat) : Option (List Nat) × List Nat :=
  if randStatusOk = false then
    (none, buf)
  else
    match randBytesResult with
    | some b => (some b, b)
    | none => (none, buf)

/-- Embeds Context_initialize (rbsecp256k1.c lines 542-563).  The C
calls GenerateRandomBytes(seed, 32) and DISCARDS its ResultT, then
feeds whatever is in `seed` to secp256k1_context_randomize; only a
randomize failure raises (message: context randomization failed).
`stackJunk` is the uninitialized stack content of `seed`. -/
def Context_initialize {κ π : Type} (L : ExternalLib κ π) (randStatusOk : Bool)
    (randBytesResult : Option (List Nat)) (stackJunk : List Nat) :
    Except SecpError (ContextObj κ) :=
  let ctx := L.context_create
  let seed := (GenerateRandomBytes randStatusOk randBytesResult stackJunk).2
  match L.context_randomize ctx seed with
  | some ctx2 => .ok { ctx := ctx2 }
  | none => .error .RandomizationError

/-- Embeds PrivateKey_initialize (rbsecp256k1.c lines 416-445).  The
argument string of the caller is a reference `ref` into the heap.  The
C checks that the length is 32, then secp256k1_ec_seckey_verify, then
MEMCPYs the 32 bytes into the C struct, clones the context, and stores
the string object of the caller itself (not a copy) into the @data
instance variable. -/
def PrivateKey_initialize {κ π : Type} (L : ExternalLib κ π) (c : ContextObj κ)
    (heap : Nat → List Nat) (ref : Nat) : Except SecpError (PrivateKeyObj κ) :=
  let bytes := heap ref
  if bytes.length ≠ 32 then
    .error .InvalidKeyLength
  else if secp256k1_ec_seckey_verify bytes = false then
    .error .InvalidPrivateKey
  else
    .ok { data := bytes, ctx := L.context_clone c.ctx, ivarData := ref }

/-- Embeds the PrivateKey#data attribute reader (rb_define_attr at
rbsecp256k1.c line 939): it returns the object stored in @data, i.e.
the string the caller passed to the constructor, read from the current
heap. -/
def PrivateKey_data {κ : Type} (heap : Nat → List Nat) (pk : PrivateKeyObj κ) :
    List Nat :=
  heap pk.ivarData

/-- Embeds PublicKey_initialize (rbsecp256k1.c lines 293-314):
secp256k1_ec_pubkey_create on the stored private key bytes; failure
raises (message: Invalid private key data; the KeyDerivationError of
the spec); success clones the context. -/
def PublicKey_initialize {κ π : Type} (L : ExternalLib κ π) (c : ContextObj κ)
    (sk : PrivateKeyObj κ) : Except SecpError (PublicKeyObj κ π) :=
  match L.pubkey_create c.ctx sk.data with
  | some p => .ok { pubkey := p, ctx := L.context_clone c.ctx }
  | none => .error .KeyDerivationError

/-- Embeds KeyPair_initialize (rbsecp256k1.c lines 833-849): after the
two type checks (satisfied here by typing), it stores the two member
objects unchanged and performs no other computation — in particular no
derivation consistency check. -/
def KeyPair_initialize {κ π : Type} (pub : PublicKeyObj κ π)
    (priv : PrivateKeyObj κ) : KeyPairObj κ π :=
  { public_key := pub, private_key := priv }

/-- Embeds SignData (rbsecp256k1.c lines 242-266): SHA-256 of the raw
input data, then secp256k1_ecdsa_sign over the 32-byte hash with NULL
nonce function and NULL nonce data (the `none` argument). -/
def SignData {κ π : Type} (L : ExternalLib κ π) (ctx : κ) (data : List Nat)
    (seckey : List Nat) : Option SigRS :=
  L.ecdsa_sign ctx (L.sha256 data) seckey none

/-- Embeds Context_sign (rbsecp256k1.c lines 742-772): SignData on the
message with the 32 stored private key bytes; on success the (r,s) pair
is wrapped in a Signature carrying a freshly cloned context; on failure
it raises (message: unable to compute signature; the SigningError of
the spec). -/
def Context_sign {κ π : Type} (L : ExternalLib κ π) (c : ContextObj κ)
    (sk : PrivateKeyObj κ) (data : List Nat) : Except SecpError (SignatureObj κ) :=
  match SignData L c.ctx data sk.data with
  | some s => .ok { sig := s, ctx := L.context_clone c.ctx }
  | none => .error .SigningError

/-- Embeds Context_verify (rbsecp256k1.c lines 783-810): SHA-256 of the
raw message, then secp256k1_ecdsa_verify; Qtrue when the primitive
returns 1, Qfalse otherwise.  After the string type check (satisfied
here by typing) the C has no raise site and mutates nothing, so the
embedding never produces an error value. -/
def Context_verify {κ π : Type} (L : ExternalLib κ π) (c : ContextObj κ)
    (sigobj : SignatureObj κ) (pub : PublicKeyObj κ π) (msg : List Nat) :
    Except SecpError Bool :=
  if L.ecdsa_verify c.ctx sigobj.sig (L.sha256 msg) pub.pubkey then
    .ok true
  else
    .ok false

/-- Embeds Signature_der_encoded (rbsecp256k1.c lines 470-490):
secp256k1_ecdsa_signature_serialize_der into a 512-byte buffer; failure
raises (message: could not compute DER encoded signature; the
EncodingError of the spec). -/
def Signature_der_encoded {κ π : Type} (L : ExternalLib κ π)
    (sigobj : SignatureObj κ) : Except SecpError (List Nat) :=
  match L.serialize_der sigobj.sig with
  | some der => .ok der
  | none => .error .EncodingError

/-- Embeds Signature_compact (rbsecp256k1.c lines 497-514):
secp256k1_ecdsa_signature_serialize_compact into a 64-byte buffer.  The
external serializer cannot fail (it always writes exactly 64 bytes), so
the C raise branch is unreachable and the embedding returns the bytes. -/
def Signature_compact {κ : Type} (sigobj : SignatureObj κ) :
    Except SecpError (List Nat) :=
  .ok (secp256k1_ecdsa_signature_serialize_compact sigobj.sig)

/-- Embeds Context_signature_from_der_encoded (rbsecp256k1.c lines
673-699): Check_Type string, then secp256k1_ecdsa_signature_parse_der
over the bytes and length of the string; failure raises (message:
invalid DER encoded signature; the InvalidDEREncoding of the spec). -/
def Context_signature_from_der_encoded {κ π : Type} (L : ExternalLib κ π)
    (c : ContextObj κ) (input : List Nat) : Except SecpError (SignatureObj κ) :=
  match L.parse_der input with
  | some s => .ok { sig := s, ctx := L.context_clone c.ctx }
  | none => .error .InvalidDEREncoding

/-- Embeds Context_signature_from_compact (rbsecp256k1.c lines
709-732).  Unlike the DER variant there is NO Check_Type and NO length
check: the C hands the data pointer of the string straight to
secp256k1_ecdsa_signature_parse_compact, which reads exactly 64 bytes.
The 64 bytes actually read are therefore the input bytes followed, when
the input is shorter than 64 bytes, by whatever bytes sit after it in
memory — modelled by `junk`.  Parse failure raises (message: invalid
compact signature; the InvalidCompactSignature of the spec). -/
def Context_signature_from_compact {κ π : Type} (L : ExternalLib κ π)
    (c : ContextObj κ) (input junk : List Nat) :
    Except SecpError (SignatureObj κ) :=
  match secp256k1_ecdsa_signature_parse_compact ((input ++ junk).take 64) with
  | some s => .ok { sig := s, ctx := L.context_clone c.ctx }
  | none => .error .InvalidCompactSignature

/-- A concrete instantiation of the external library surface, used only
to evaluate the embedded wrapper code on closed inputs (witnesses and
counterexamples).  It satisfies the contract hypotheses the theorems
assume: signing is deterministic and context-independent, a signature
produced by signing verifies against the derived key, and the toy DER
codec round-trips. -/
def toyLib : ExternalLib Unit (List Nat) where
  context_create := ()
  context_clone := fun c => c
  context_randomize := fun _ _ => some ()
  sha256 := fun m => m
  pubkey_create := fun _ k => some k
  ecdsa_sign := fun _ h k _ => some { r := beNat h, s := beNat k }
  ecdsa_verify := fun _ s h p => decide (s.r = beNat h ∧ s.s = beNat p)
  serialize_der := fun s => some [s.r, s.s]
  parse_der := fun l =>
    match l with
    | [a, b] => some { r := a, s := b }
    | _ => none

/-- A concrete Context object over the toy library. -/
def toyCtxObj : ContextObj Unit := { ctx := () }

/-- A concrete valid PrivateKey object: scalar 1, @data stored as heap
reference 0. -/
def toySk : PrivateKeyObj Unit :=
  { data := beBytes 32 1, ctx := (), ivarData := 0 }

/-- The PublicKey derived from `toySk` under the toy library. -/
def toyPub : PublicKeyObj Unit (List Nat) :=
  { pubkey := beBytes 32 1, ctx := () }

/-- A PublicKey that is NOT the derivation of `toySk` under the toy
library. -/
def mismatchPub : PublicKeyObj Unit (List Nat) :=
  { pubkey := beBytes 32 7, ctx := () }

/-- The Signature produced by signing the message [1, 2, 3] with
`toySk` under the toy library (toy hash is the identity, so r is the
big-endian value 66051 of the message and s the scalar 1 of the key). -/
def sigW : SignatureObj Unit :=
  { sig := { r := 66051, s := 1 }, ctx := () }

/-- A concrete Signature object with small scalars, for the
serialization round-trip witness. -/
def sigV : SignatureObj Unit :=
  { sig := { r := 1, s := 2 }, ctx := () }

/-- A concrete heap for validation witnesses: string object 0 has 31
bytes, string object 1 is the all-zero 32 bytes, everything else is the
valid scalar 1. -/
def heapW : Nat → List Nat := fun ref =>
  if ref = 0 then List.replicate 31 0
  else if ref = 1 then List.replicate 32 0
  else beBytes 32 1

/-- A concrete heap in which string object 0 holds the valid scalar 1:
the state at PrivateKey construction time. -/
def heapA : Nat → List Nat := fun ref =>
  if ref = 0 then beBytes 32 1 else []

/-- The heap after the caller mutates string object 0 in place to the
scalar 2 (Ruby strings are mutable, so this mutates the very object the
constructor received and stored into @data). -/
def heapB : Nat → List Nat := fun ref =>
  if ref = 0 then beBytes 32 2 else []

theorem beBytes_length (w n : Nat) : (beBytes w n).length = w := by
  induction w generalizing n with
  | zero => rfl
  | succ w ih => simp [beBytes, ih]

theorem beNat_append (l1 l2 : List Nat) :
    beNat (l1 ++ l2) = beNat l1 * 256 ^ l2.length + beNat l2 := by
  induction l1 with
  | nil => simp [beNat]
  | cons b bs ih =>
    simp only [List.cons_append, beNat, List.append_eq, List.length_append, ih, pow_add]
    ring

theorem beNat_beBytes (w n : Nat) (h : n < 256 ^ w) : beNat (beBytes w n) = n := by
  induction w generalizing n with
  | zero =>
    simp only [pow_zero, Nat.lt_one_iff] at h
    simp [beBytes, beNat, h]
  | succ w ih =>
    have hd : n / 256 < 256 ^ w := by
      rw [Nat.div_lt_iff_lt_mul (by norm_num)]
      calc n < 256 ^ (w + 1) := h
        _ = 256 ^ w * 256 := by rw [pow_succ]
    simp only [beBytes, beNat_append, ih _ hd, beNat, List.length_singleton,
      List.length_nil, pow_zero, pow_one, mul_one, add_zero]
    omega

theorem secpOrder_lt_pow : secpOrder < 256 ^ 32 := by decide

theorem serialize_compact_length (sig : SigRS) :
    (secp256k1_ecdsa_signature_serialize_compact sig).length = 64 := by
  simp [secp256k1_ecdsa_signature_serialize_compact, beBytes_length]

theorem serialize_compact_take (sig : SigRS) :
    (secp256k1_ecdsa_signature_serialize_compact sig).take 32 = beBytes 32 sig.r := by
  rw [secp256k1_ecdsa_signature_serialize_compact]
  exact List.take_left' (beBytes_length 32 sig.r)

theorem serialize_compact_drop (sig : SigRS) :
    ((secp256k1_ecdsa_signature_serialize_compact sig).drop 32).take 32 =
      beBytes 32 sig.s := by
  rw [secp256k1_ecdsa_signature_serialize_compact,
    List.drop_left' (beBytes_length 32 sig.r)]
  exact List.take_of_length_le (by rw [beBytes_length])

theorem parse_serialize_compact (sig : SigRS)
    (hr : sig.r < secpOrder) (hs : sig.s < secpOrder) :
    secp256k1_ecdsa_signature_parse_compact
      (secp256k1_ecdsa_signature_serialize_compact sig) = some sig := by
  have hr' : sig.r < 256 ^ 32 := lt_trans hr secpOrder_lt_pow
  have hs' : sig.s < 256 ^ 32 := lt_trans hs secpOrder_lt_pow
  rw [secp256k1_ecdsa_signature_parse_compact, serialize_compact_take,
    serialize_compact_drop, beNat_beBytes 32 sig.r hr',
    beNat_beBytes 32 sig.s hs', if_pos ⟨hr, hs⟩]

/-- C1 (code defect): the claim states that Context.initialize raises
RandomizationError whenever the generation of the 32 random seed bytes
fails, and that for every execution in which the random source reports
failure the constructor does not return a usable context.  Evaluating
the embedded constructor on an execution in which the random source
reports failure (RAND_status() = 0, so GenerateRandomBytes returns
RESULT_FAILURE and the seed keeps its uninitialized stack content)
while the external blinding operation succeeds shows the C ignores the
failure and returns a usable context: the ResultT of
GenerateRandomBytes is discarded at rbsecp256k1.c line 556. -/
theorem context_initialize_ignores_rng_failure :
    (GenerateRandomBytes false none (List.replicate 32 0)).1 = none
    ∧ Context_initialize toyLib false none (List.replicate 32 0) =
        .ok { ctx := () } :=
  ⟨rfl, rfl⟩

/-- C2 (code defect): the claim states that signature_from_compact
fails with InvalidCompactSignature on every input whose length is not
64 bytes and never reads beyond the supplied input.  The embedded code
has no length check: secp256k1_ecdsa_signature_parse_compact always
reads 64 bytes, so on the empty input string the bytes read are
whatever sits after the string in memory (the junk argument below), and
when those happen to decode to valid scalars the call SUCCEEDS instead
of raising InvalidCompactSignature. -/
theorem signature_from_compact_reads_past_short_input :
    ([] : List Nat).length = 0
    ∧ Context_signature_from_compact toyLib toyCtxObj []
        (secp256k1_ecdsa_signature_serialize_compact { r := 1, s := 1 }) =
        .ok { sig := { r := 1, s := 1 }, ctx := () } := by
  refine ⟨rfl, ?_⟩
  rw [Context_signature_from_compact, List.nil_append,
    List.take_of_length_le (le_of_eq (serialize_compact_length _)),
    parse_serialize_compact _ (by decide) (by decide)]

/-- C3: PrivateKey construction from bytes fails with InvalidKeyLength
whenever the input length differs from 32, fails with InvalidPrivateKey
whenever the 32-byte scalar is invalid — in particular the all-zero 32
bytes and every value at least the curve order are invalid — and on
success the object holds exactly the 32 input bytes. -/
theorem privatekey_from_bytes_validation {κ π : Type} (L : ExternalLib κ π)
    (c : ContextObj κ) (heap : Nat → List Nat) (ref : Nat) :
    ((heap ref).length ≠ 32 →
      PrivateKey_initialize L c heap ref = .error .InvalidKeyLength)
    ∧ ((heap ref).length = 32 → secp256k1_ec_seckey_verify (heap ref) = false →
      PrivateKey_initialize L c heap ref = .error .InvalidPrivateKey)
    ∧ secp256k1_ec_seckey_verify (List.replicate 32 0) = false
    ∧ (∀ b : List Nat, secpOrder ≤ beNat b → secp256k1_ec_seckey_verify b = false)
    ∧ (∀ pk : PrivateKeyObj κ, PrivateKey_initialize L c heap ref = .ok pk →
      pk.data = heap ref ∧ (heap ref).length = 32 ∧
        secp256k1_ec_seckey_verify (heap ref) = true) := by
  refine ⟨?_, ?_, by decide, ?_, ?_⟩
  · intro h
    simp [ PrivateKey_initialize, h]
  · intro h1 h2
    simp [ PrivateKey_initialize, h1, h2]
  · intro b hb
    simp only [secp256k1_ec_seckey_verify, decide_eq_false_iff_not, not_and, not_lt]
    intro _
    exact hb
  · intro pk h
    rw [ PrivateKey_initialize] at h
    split_ifs at h with h1 h2
    simp only [Except.ok.injEq] at h
    refine ⟨by rw [← h], by omega, ?_⟩
    cases hv : secp256k1_ec_seckey_verify (heap ref) with
    | false => exact absurd hv h2
    | true => rfl

/-- Witness for C3: concrete evaluations — a 31-byte input is rejected
with InvalidKeyLength, the all-zero 32 bytes are rejected with
InvalidPrivateKey, and the all-zero scalar fails the validity
predicate. -/
theorem privatekey_from_bytes_validation_witness :
    PrivateKey_initialize toyLib toyCtxObj heapW 0 = .error .InvalidKeyLength
    ∧ PrivateKey_initialize toyLib toyCtxObj heapW 1 = .error .InvalidPrivateKey
    ∧ secp256k1_ec_seckey_verify (List.replicate 32 0) = false :=
  ⟨(privatekey_from_bytes_validation toyLib toyCtxObj heapW 0).1 (by decide),
    (privatekey_from_bytes_validation toyLib toyCtxObj heapW 1).2.1
      (by decide) (by decide),
    (privatekey_from_bytes_validation toyLib toyCtxObj heapW 0).2.2.1⟩

/-- C4: signing computes the SHA-256 hash of the raw message, invokes
the ECDSA primitive over that hash with the 32 stored private key bytes
and a NULL (default deterministic, RFC 6979-style) nonce function —
consuming no caller-supplied randomness — wraps the resulting (r,s)
pair in a new Signature carrying a cloned context, and raises
SigningError exactly when the primitive reports failure. -/
theorem context_sign_protocol {κ π : Type} (L : ExternalLib κ π)
    (c : ContextObj κ) (sk : PrivateKeyObj κ) (m : List Nat) :
    SignData L c.ctx m sk.data = L.ecdsa_sign c.ctx (L.sha256 m) sk.data none
    ∧ (Context_sign L c sk m = .error .SigningError ↔
        L.ecdsa_sign c.ctx (L.sha256 m) sk.data none = none)
    ∧ ∀ so : SignatureObj κ, Context_sign L c sk m = .ok so ↔
        (L.ecdsa_sign c.ctx (L.sha256 m) sk.data none = some so.sig ∧
          so.ctx = L.context_clone c.ctx) := by
  refine ⟨rfl, ?_, ?_⟩
  · cases h : L.ecdsa_sign c.ctx (L.sha256 m) sk.data none with
    | some s => simp [Context_sign, SignData, h]
    | none => simp [Context_sign, SignData, h]
  · intro so
    cases so with
    | mk sosig soctx =>
      cases h : L.ecdsa_sign c.ctx (L.sha256 m) sk.data none with
      | some s =>
        simp only [Context_sign, SignData, h, Except.ok.injEq,
          SignatureObj.mk.injEq, Option.some.injEq]
        constructor
        · rintro ⟨h1, h2⟩
          exact ⟨h1, h2.symm⟩
        · rintro ⟨h1, h2⟩
          exact ⟨h1, h2.symm⟩
      | none => simp [Context_sign, SignData, h]

/-- Witness for C4: evaluating the embedded signing path on a concrete
message and key under the toy library. -/
theorem context_sign_protocol_witness :
    Context_sign toyLib toyCtxObj toySk [4] =
      .ok { sig := { r := 4, s := 1 }, ctx := () } :=
  ((context_sign_protocol toyLib toyCtxObj toySk [4]).2.2
    { sig := { r := 4, s := 1 }, ctx := () }).mpr ⟨by decide, rfl⟩

/-- C5: verification is total and side-effect free — for every
well-constructed signature, public key and message it returns the
boolean verdict of the ECDSA primitive on the SHA-256 hash of the
message, wrapped in the success constructor; a mismatch yields the
value false, never an error. -/
theorem context_verify_total_boolean {κ π : Type} (L : ExternalLib κ π)
    (c : ContextObj κ) (sigobj : SignatureObj κ) (pub : PublicKeyObj κ π)
    (m : List Nat) :
    Context_verify L c sigobj pub m =
      .ok (L.ecdsa_verify c.ctx sigobj.sig (L.sha256 m) pub.pubkey) := by
  rw [Context_verify]
  cases h : L.ecdsa_verify c.ctx sigobj.sig (L.sha256 m) pub.pubkey <;> simp [h]

/-- C6: for every message and every key pair whose public key is
derived from the private key, verifying the signature produced by
signing that message returns true.  The library contract assumed by the
spec — a signature produced by the ECDSA primitive verifies, under any
context, against the public key derived from the same secret — is the
explicit hypothesis; the theorem shows the wrapper orchestration
(hash-then-sign and hash-then-verify over the same raw message, with
the stored key bytes) composes to .ok true. -/
theorem sign_then_verify_roundtrip {κ π : Type} (L : ExternalLib κ π)
    (cDerive cSign cVerify : ContextObj κ) (sk : PrivateKeyObj κ)
    (pk : PublicKeyObj κ π) (m : List Nat) (sigobj : SignatureObj κ)
    (hcontract : ∀ (c1 c2 c3 : κ) (h k : List Nat) (s : SigRS) (p : π),
      L.ecdsa_sign c1 h k none = some s → L.pubkey_create c2 k = some p →
      L.ecdsa_verify c3 s h p = true)
    (hpk : PublicKey_initialize L cDerive sk = .ok pk)
    (hsig : Context_sign L cSign sk m = .ok sigobj) :
    Context_verify L cVerify sigobj pk m = .ok true := by
  rw [ PublicKey_initialize] at hpk
  rw [Context_sign] at hsig
  cases hP : L.pubkey_create cDerive.ctx sk.data with
  | none => rw [hP] at hpk; exact absurd hpk (by simp)
  | some p =>
    rw [hP] at hpk
    simp only [Except.ok.injEq] at hpk
    cases hS : SignData L cSign.ctx m sk.data with
    | none => rw [hS] at hsig; exact absurd hsig (by simp)
    | some s =>
      rw [hS] at hsig
      simp only [Except.ok.injEq] at hsig
      rw [SignData] at hS
      have hv : L.ecdsa_verify cVerify.ctx s (L.sha256 m) p = true :=
        hcontract cSign.ctx cDerive.ctx cVerify.ctx (L.sha256 m) sk.data s p hS hP
      rw [Context_verify, ← hpk, ← hsig]
      simp [hv]

/-- Witness for C6: concrete end-to-end evaluation under the toy
library — sign [1, 2, 3] with the scalar-1 key, verify against the
derived public key and the same message, obtain .ok true. -/
theorem sign_then_verify_roundtrip_witness :
    Context_verify toyLib toyCtxObj sigW toyPub [1, 2, 3] = .ok true :=
  sign_then_verify_roundtrip toyLib toyCtxObj toyCtxObj toyCtxObj toySk
    toyPub [1, 2, 3] sigW
    (by
      intro c1 c2 c3 h k s p hsn hpn
      simp only [toyLib, Option.some.injEq] at hsn hpn
      subst hsn
      subst hpn
      simp [toyLib])
    rfl rfl

/-- C7: serialization round-trips.  toCompact always returns exactly 64
bytes in big-endian r ‖ s order, and parsing them back reproduces the
same (r,s); parsing the DER bytes produced by toDER also reproduces the
same (r,s) (the DER codec itself is external and assumed inverse, per
the spec; the compact codec is modelled concretely).  The scalar bounds
hold for every signature object the wrapper can hold, since both the
signing primitive and both parsers only produce reduced scalars. -/
theorem signature_serialization_roundtrip {κ π : Type} (L : ExternalLib κ π)
    (c : ContextObj κ) (sigobj : SignatureObj κ) (junk : List Nat)
    (hr : sigobj.sig.r < secpOrder) (hs : sigobj.sig.s < secpOrder)
    (hder : ∀ (s : SigRS) (der : List Nat),
      L.serialize_der s = some der → L.parse_der der = some s) :
    Signature_compact sigobj =
      .ok (beBytes 32 sigobj.sig.r ++ beBytes 32 sigobj.sig.s)
    ∧ (secp256k1_ecdsa_signature_serialize_compact sigobj.sig).length = 64
    ∧ Context_signature_from_compact L c
        (secp256k1_ecdsa_signature_serialize_compact sigobj.sig) junk =
        .ok { sig := sigobj.sig, ctx := L.context_clone c.ctx }
    ∧ ∀ der : List Nat, Signature_der_encoded L sigobj = .ok der →
        Context_signature_from_der_encoded L c der =
          .ok { sig := sigobj.sig, ctx := L.context_clone c.ctx } := by
  refine ⟨rfl, serialize_compact_length _, ?_, ?_⟩
  · rw [Context_signature_from_compact,
      List.take_append_of_le_length (le_of_eq (serialize_compact_length _).symm),
      List.take_of_length_le (le_of_eq (serialize_compact_length _)),
      parse_serialize_compact _ hr hs]
  · intro der hd
    rw [Signature_der_encoded] at hd
    cases hD : L.serialize_der sigobj.sig with
    | none => rw [hD] at hd; exact absurd hd (by simp)
    | some d =>
      rw [hD] at hd
      simp only [Except.ok.injEq] at hd
      subst hd
      rw [Context_signature_from_der_encoded, hder _ _ hD]

/-- Witness for C7: concrete round-trip of the signature (r = 1, s = 2)
through the compact codec under the toy library. -/
theorem signature_serialization_roundtrip_witness :
    Context_signature_from_compact toyLib toyCtxObj
      (secp256k1_ecdsa_signature_serialize_compact { r := 1, s := 2 }) [] =
      .ok { sig := { r := 1, s := 2 }, ctx := () }
    ∧ (secp256k1_ecdsa_signature_serialize_compact { r := 1, s := 2 }).length = 64 :=
  ⟨(signature_serialization_roundtrip toyLib toyCtxObj sigV [] (by decide)
      (by decide)
      (by
        intro s der h
        simp only [toyLib, Option.some.injEq] at h
        subst h
        rfl)).2.2.1,
    (signature_serialization_roundtrip toyLib toyCtxObj sigV [] (by decide)
      (by decide)
      (by
        intro s der h
        simp only [toyLib, Option.some.injEq] at h
        subst h
        rfl)).2.1⟩

/-- C8: KeyPair construction is a pure aggregate — for every well-typed
PublicKey and PrivateKey it succeeds (the embedding is total) and
stores both members unchanged; no derivation check is performed, so in
particular a concrete mismatched pair (mismatchPub is not the
derivation of toySk, which is toyPub) is accepted and stored as-is. -/
theorem keypair_pure_aggregate {κ π : Type} (pub : PublicKeyObj κ π)
    (priv : PrivateKeyObj κ) :
    ( KeyPair_initialize pub priv).public_key = pub
    ∧ ( KeyPair_initialize pub priv).private_key = priv
    ∧ PublicKey_initialize toyLib toyCtxObj toySk = .ok toyPub
    ∧ decide (mismatchPub = toyPub) = false
    ∧ ( KeyPair_initialize mismatchPub toySk).public_key = mismatchPub
    ∧ ( KeyPair_initialize mismatchPub toySk).private_key = toySk :=
  ⟨rfl, rfl, rfl, by decide, rfl, rfl⟩

/-- C9 counterexample: the claim states that after a successful
construction, mutating the original byte buffer of the caller changes
neither the key material nor the bytes exposed by the data accessor.
Concretely: construct a PrivateKey from string object 0 holding the
scalar-1 bytes (heapA), mutate that same string object in place to the
scalar-2 bytes (heapB); the data accessor now returns the scalar-2
bytes, not the original scalar-1 bytes, because the C stored the
very string object of the caller into @data. -/
theorem privatekey_data_accessor_reflects_caller_mutation :
    PrivateKey_initialize toyLib toyCtxObj heapA 0 = .ok toySk
    ∧ toySk.data = beBytes 32 1
    ∧ PrivateKey_data heapA toySk = beBytes 32 1
    ∧ PrivateKey_data heapB toySk = beBytes 32 2
    ∧ decide ((beBytes 32 2 : List Nat) = beBytes 32 1) = false :=
  ⟨rfl, rfl, rfl, rfl, by decide⟩

/-- C9 amended: on success the object stores a defensive copy of the
32 input bytes as the key material used for signing and derivation
(the `data` field, fixed at construction time and read thereafter
independently of the heap), but the data accessor returns the original
string object of the caller and therefore reflects any later in-place
mutation of it. -/
theorem privatekey_internal_copy_and_accessor_alias {κ π : Type}
    (L : ExternalLib κ π) (c : ContextObj κ) (heap : Nat → List Nat)
    (ref : Nat) (pk : PrivateKeyObj κ)
    (hok : PrivateKey_initialize L c heap ref = .ok pk) :
    pk.data = heap ref ∧ pk.ivarData = ref
    ∧ (∀ heap2 : Nat → List Nat, PrivateKey_data heap2 pk = heap2 ref) := by
  rw [ PrivateKey_initialize] at hok
  split_ifs at hok with h1 h2
  simp only [Except.ok.injEq] at hok
  subst hok
  exact ⟨rfl, rfl, fun heap2 => rfl⟩

/-- Witness for the amended C9: concrete instantiation — the internal
copy equals the construction-time bytes, while the accessor read under
the mutated heap returns the mutated bytes. -/
theorem privatekey_internal_copy_and_accessor_alias_witness :
    toySk.data = heapA 0 ∧ PrivateKey_data heapB toySk = heapB 0 :=
  ⟨(privatekey_internal_copy_and_accessor_alias toyLib toyCtxObj heapA 0
      toySk rfl).1,
    (privatekey_internal_copy_and_accessor_alias toyLib toyCtxObj heapA 0
      toySk rfl).2.2 heapB⟩

/-- C10: signing is deterministic across contexts.  Under the library
contract the spec assumes (the default-nonce ECDSA primitive is a
function of hash and key only, independent of the context and its
blinding — RFC 6979 determinism), any two validly created and
randomized contexts produce signatures with identical (r,s), hence
byte-identical compact and DER encodings. -/
theorem sign_deterministic_across_contexts {κ π : Type} (L : ExternalLib κ π)
    (st1 st2 : Bool) (rb1 rb2 : Option (List Nat)) (j1 j2 : List Nat)
    (cA cB : ContextObj κ) (sk : PrivateKeyObj κ) (m : List Nat)
    (sA sB : SignatureObj κ)
    (hdet : ∀ (c1 c2 : κ) (h k : List Nat),
      L.ecdsa_sign c1 h k none = L.ecdsa_sign c2 h k none)
    (_hA : Context_initialize L st1 rb1 j1 = .ok cA)
    (_hB : Context_initialize L st2 rb2 j2 = .ok cB)
    (hsA : Context_sign L cA sk m = .ok sA)
    (hsB : Context_sign L cB sk m = .ok sB) :
    sA.sig = sB.sig ∧ Signature_compact sA = Signature_compact sB
    ∧ Signature_der_encoded L sA = Signature_der_encoded L sB := by
  rw [Context_sign] at hsA hsB
  cases h1 : SignData L cA.ctx m sk.data with
  | none => rw [h1] at hsA; exact absurd hsA (by simp)
  | some s1 =>
    rw [h1] at hsA
    cases h2 : SignData L cB.ctx m sk.data with
    | none => rw [h2] at hsB; exact absurd hsB (by simp)
    | some s2 =>
      rw [h2] at hsB
      simp only [Except.ok.injEq] at hsA hsB
      have hss : s1 = s2 := by
        have hd := hdet cA.ctx cB.ctx (L.sha256 m) sk.data
        rw [SignData] at h1 h2
        rw [h1, h2] at hd
        exact Option.some.inj hd
      have hsig : sA.sig = sB.sig := by
        rw [← hsA, ← hsB]
        exact hss
      refine ⟨hsig, ?_, ?_⟩
      · rw [Signature_compact, Signature_compact, hsig]
      · unfold Signature_der_encoded
        rw [hsig]

/-- Witness for C10: two contexts independently created from different
random seeds sign the same message with the same key to the same
signature object content under the toy library. -/
theorem sign_deterministic_across_contexts_witness :
    sigW.sig = sigW.sig
    ∧ Signature_compact sigW = Signature_compact sigW
    ∧ Signature_der_encoded toyLib sigW = Signature_der_encoded toyLib sigW :=
  sign_deterministic_across_contexts toyLib true true (some (List.replicate 32 3))
    (some (List.replicate 32 4)) [] [] toyCtxObj toyCtxObj toySk [1, 2, 3]
    sigW sigW (fun _ _ _ _ => rfl) rfl rfl rfl rfl
